import Mathlib

/-!
# Verification of the interact.js pointer-interaction core

A shallow embedding of `src/Interaction.js` (the interaction session state
machine) and the dispatch glue of `src/interactions.js`.

Conventions of the embedding:

* JavaScript numbers are embedded as `Int`.  The claims under verification
  depend only on exact equality of coordinate snapshots, on subtraction, and
  on the comparison `hypot(dx,dy) > tolerance`; none depends on
  floating-point rounding.  The two divisions (centroid averaging and
  velocity) occur only inside helpers that are modelled from the spec and
  whose numeric results no claim inspects.
* JavaScript arrays with possibly-sparse assignment (`a[i] = v` may extend
  the array, leaving holes) are embedded as `List (Option α)` with
  `arraySet`; `a.splice(i, 1)` is `spliceOne`.
* The signal bus is embedded as an event log: every operation returns the
  list of signals it fires, in order, next to the updated session state.
  Listeners are outside the core; the only listener influence the core ever
  reads back is the `false` veto sentinel of the `before-action-move` and
  `before-action-end` channels, which is passed into the corresponding
  operations as an explicit `Bool` argument (`true` = some listener returned
  `false`).
* Opaque DOM/interactable handles (event targets, elements, interactable
  targets) are embedded as `Nat`.
-/

namespace IJS

/-- JavaScript array element write `a[i] = v`: in-bounds writes replace the
slot, out-of-bounds writes extend the array, padding skipped slots with
holes (`none`). -/
def arraySet {α : Type} (l : List (Option α)) (i : Nat) (v : α) : List (Option α) :=
  if i < l.length then l.set i (some v)
  else l ++ List.replicate (i - l.length) none ++ [some v]

/-- JavaScript `a.splice(i, 1)`: removes the element at index `i`; an index
at or past the end removes nothing. -/
def spliceOne {α : Type} (l : List α) (i : Nat) : List α :=
  l.take i ++ l.drop (i + 1)

/-- ASCII lower-casing of one character (enough for DOM event type names). -/
def lowerChar (c : Char) : Char :=
  if 'A' ≤ c && c ≤ 'Z' then Char.ofNat (c.toNat + 32) else c

/-- Lower-cased character list of a string. -/
def lowerStr (s : String) : List Char := s.data.map lowerChar

/-- Does `l` start with `pat`? -/
def startsWithList : List Char → List Char → Bool
  | _, [] => true
  | [], _ :: _ => false
  | c :: cs, p :: ps => c == p && startsWithList cs ps

/-- Does `l` contain `pat` as a contiguous run? -/
def containsList : List Char → List Char → Bool
  | [], pat => pat.isEmpty
  | c :: cs, pat => startsWithList (c :: cs) pat || containsList cs pat

/-- Embeds the test `/cancel$/i.test(t)`: case-insensitively, does `t` end
in `cancel`? -/
def isCancelType (t : String) : Bool :=
  startsWithList (lowerStr t).reverse ['l', 'e', 'c', 'n', 'a', 'c']

/-- Embeds the test `/mouse/.test(t)`. -/
def isMouseTypeStr (t : String) : Bool :=
  containsList t.data ['m', 'o', 'u', 's', 'e']

/-- Embeds the test `/touch/.test(t)`. -/
def isTouchTypeStr (t : String) : Bool :=
  containsList t.data ['t', 'o', 'u', 'c', 'h']

/-- A point in one coordinate space. -/
structure XY where
  x : Int
  y : Int
deriving DecidableEq, Repr

/-- A coordinate snapshot: page space, client space and a timestamp
(`prevCoords` / `curCoords` / `startCoords` in the source). -/
structure Coords where
  page : XY
  client : XY
  timeStamp : Int
deriving DecidableEq, Repr

/-- Per-space kinematic deltas (`{x, y, vx, vy, speed}` in the source).
`speedSq` stores `speed² = vx² + vy²`, which determines the nonnegative
speed `hypot(vx, vy)` of the source. -/
structure DeltaXY where
  x : Int
  y : Int
  vx : Int
  vy : Int
  speedSq : Int
deriving DecidableEq, Repr

/-- The `pointerDelta` record of the source. -/
structure PointerDelta where
  page : DeltaXY
  client : DeltaXY
  timeStamp : Int
deriving DecidableEq, Repr

/-- A raw pointer / touch contact: its stable identifier
(`utils.pointer.getPointerId`) and its coordinates in both spaces. -/
structure Pointer where
  pointerId : Nat
  page : XY
  client : XY
deriving DecidableEq, Repr

/-- A raw DOM event as the core consumes it: its `type` string and its
`timeStamp`. -/
structure RawEvent where
  type : String
  timeStamp : Int
deriving DecidableEq, Repr

/-- The `prepared` action record of the session (`{name, axis, edges}`);
`name` is `none` while no action is prepared. The `axis`/`edges` payloads
are opaque to the core and embedded as strings. -/
structure Prepared where
  name : Option String
  axis : Option String
  edges : Option String
deriving DecidableEq, Repr

/-- An action descriptor passed to `start` by the external action system
(`{ name: 'drag' | 'resize' | 'gesture', ... }`). -/
structure Action where
  name : String
  axis : Option String := none
  edges : Option String := none
deriving DecidableEq, Repr

/-- A lifecycle event as built by `_createPreparedEvent` via the external
`InteractEvent` factory; only the fields the core itself determines are
kept (the factory owns the rest). -/
structure InteractEvent where
  actionName : Option String
  phase : String
  preEnd : Bool
deriving DecidableEq, Repr

/-- The signals an interaction session (and the dispatcher) fires, in
order, with the payload fields the claims inspect.  `targetFire p` records
`_fireEvent` dispatching a phase-`p` lifecycle event to the target
interactable. -/
inductive Sig where
  | new
  | down (pointerIndex : Nat)
  | updatePointerDown (pointerId : Nat) (pointerIndex : Nat)
  | move (duplicate : Bool)
  | beforeActionMove
  | actionMove
  | afterActionMove
  | actionStart
  | afterActionStart
  | beforeActionEnd
  | actionEnd
  | afterActionEnd
  | up
  | cancel
  | removePointer (pointerIndex : Nat)
  | blur
  | stop
  | find
  | targetFire (phase : String)
deriving DecidableEq, Repr

/-- The session state: the fields of `class Interaction`, with the source's
names (`_interacting`, `_ending` are the private flags behind
`interacting()` / `isEnding`). -/
structure Interaction where
  target : Option Nat
  element : Option Nat
  prepared : Prepared
  pointers : List (Option Pointer)
  pointerIds : List (Option Nat)
  downTargets : List (Option Nat)
  downTimes : List (Option Int)
  prevCoords : Coords
  curCoords : Coords
  startCoords : Coords
  pointerDelta : PointerDelta
  downEvent : Option RawEvent
  downPointer : Option Pointer
  prevEvent : Option InteractEvent
  pointerIsDown : Bool
  pointerWasMoved : Bool
  _interacting : Bool
  _ending : Bool
  simulation : Bool
  pointerType : String
deriving DecidableEq, Repr

def zeroXY : XY := { x := 0, y := 0 }

def zeroCoords : Coords := { page := zeroXY, client := zeroXY, timeStamp := 0 }

def zeroDeltaXY : DeltaXY := { x := 0, y := 0, vx := 0, vy := 0, speedSq := 0 }

def zeroDelta : PointerDelta := { page := zeroDeltaXY, client := zeroDeltaXY, timeStamp := 0 }

/-- The constructor of `Interaction`: every field as initialised by
`constructor ({ pointerType, signals })`.  (The constructor also fires the
`new` signal on the scope-wide bus; the dispatcher model records it.) -/
def mkInteraction (pointerType : String) : Interaction where
  target := none
  element := none
  prepared := { name := none, axis := none, edges := none }
  pointers := []
  pointerIds := []
  downTargets := []
  downTimes := []
  prevCoords := zeroCoords
  curCoords := zeroCoords
  startCoords := zeroCoords
  pointerDelta := zeroDelta
  downEvent := none
  downPointer := none
  prevEvent := none
  pointerIsDown := false
  pointerWasMoved := false
  _interacting := false
  _ending := false
  simulation := false
  pointerType := pointerType

/-- `Interaction.pointerMoveTolerance = 1`. -/
def pointerMoveTolerance : Int := 1

/-- Modelled from the spec: `utils.hypot` is used only in the movement
tolerance test `hypot(dx, dy) > tolerance`; for a nonnegative tolerance
this is equivalent to `dx² + dy² > tolerance²`, which is how the test is
embedded (square roots avoided). -/
def hypotGt (dx dy tol : Int) : Bool :=
  decide (dx * dx + dy * dy > tol * tol)

/-- Modelled from the spec: `utils.copyAction(prepared, action)` copies the
requested action descriptor (name, axis, edges) into `prepared`. -/
def copyAction (action : Action) : Prepared :=
  { name := some action.name, axis := action.axis, edges := action.edges }

/-- Integer average of a list (0 on the empty list). -/
def intAvg (l : List Int) : Int := l.sum / (l.length : Int)

/-- Modelled from the spec: `utils.pointer.setCoords(targetObj, pointers)`
recomputes the aggregate coordinate (the centroid for multi-contact, the
pointer's own position for a single contact) from all held contacts in both
page and client space, and stamps the snapshot with the sample's arrival
time (`new Date().getTime()`), supplied here as `now`.  Holes in the
pointers array are skipped. -/
def setCoords (pointers : List (Option Pointer)) (now : Int) : Coords :=
  let ps := pointers.filterMap id
  { page := { x := intAvg (ps.map fun p => p.page.x), y := intAvg (ps.map fun p => p.page.y) }
    client := { x := intAvg (ps.map fun p => p.client.x), y := intAvg (ps.map fun p => p.client.y) }
    timeStamp := now }

/-- Modelled from the spec (§4.1 Kinematics Tracker):
`utils.pointer.setCoordDeltas(pointerDelta, prev, cur)` computes, per
coordinate space, `dx = cur.x − prev.x`, `dy` analogously,
`timeDelta = cur.timeStamp − prev.timeStamp`, `vx = dx / timeDelta`
(0 when `timeDelta` is 0), and the speed `hypot(vx, vy)` (stored squared,
see `DeltaXY`). -/
def setCoordDeltas (prev cur : Coords) : PointerDelta :=
  let td := cur.timeStamp - prev.timeStamp
  let mk : XY → XY → DeltaXY := fun p c =>
    let dx := c.x - p.x
    let dy := c.y - p.y
    let vx := if td = 0 then 0 else dx / td
    let vy := if td = 0 then 0 else dy / td
    { x := dx, y := dy, vx := vx, vy := vy, speedSq := vx * vx + vy * vy }
  { page := mk prev.page cur.page
    client := mk prev.client cur.client
    timeStamp := td }

/-- `_createPreparedEvent(event, phase, preEnd)`: builds a lifecycle event
carrying the prepared action name via the external `InteractEvent` factory
(the raw event argument feeds only fields the factory owns, which the
embedding does not track). -/
def createPreparedEvent (i : Interaction) (phase : String) (preEnd : Bool) : InteractEvent :=
  { actionName := i.prepared.name, phase := phase, preEnd := preEnd }

/-- JavaScript `Array.prototype.indexOf`: the first index holding `v`, or
−1 when `v` is absent (holes never match a present value). -/
def jsIndexOf {α : Type} [DecidableEq α] : List α → α → Int
  | [], _ => -1
  | a :: t, v =>
    if a = v then 0
    else
      let r := jsIndexOf t v
      if r = -1 then -1 else r + 1

/-- `getPointerIndex(pointer)`: mouse and pen sessions always resolve slot
0; touch sessions resolve the position of the pointer's identifier in
`pointerIds`, or −1 when absent. -/
def getPointerIndex (i : Interaction) (pointer : Pointer) : Int :=
  if i.pointerType = "mouse" || i.pointerType = "pen" then 0
  else jsIndexOf i.pointerIds (some pointer.pointerId)

/-- `updatePointer(pointer, event, eventTarget, down)`: resolves (or
appends) the contact's slot, stores the latest raw pointer there, and on a
down additionally re-stamps the id/pointer slots, sets `pointerIsDown`,
and — when the session is not interacting — resets the three coordinate
snapshots to the new down position, records the down event/time/target and
the `downPointer` snapshot, clears `pointerWasMoved`, and fires
`update-pointer-down`.  Returns (state, fired signals, slot index).
`now` supplies the wall-clock time `setCoords` stamps snapshots with. -/
def updatePointer (i : Interaction) (pointer : Pointer) (event : Option RawEvent)
    (eventTarget : Nat) (down : Bool) (now : Int) : Interaction × List Sig × Nat :=
  let idx := getPointerIndex i pointer
  let index := if idx = -1 then i.pointerIds.length else idx.toNat
  let i1 := if idx = -1 then { i with pointerIds := arraySet i.pointerIds index pointer.pointerId } else i
  let i2 :=
    if down then
      let a := { i1 with
        pointerIds := arraySet i1.pointerIds index pointer.pointerId
        pointers := arraySet i1.pointers index pointer
        pointerIsDown := true }
      if !a._interacting then
        let sc := setCoords a.pointers now
        { a with
          startCoords := sc
          curCoords := sc
          prevCoords := sc
          downEvent := event
          downTimes := arraySet a.downTimes index sc.timeStamp
          downTargets := arraySet a.downTargets index eventTarget
          pointerWasMoved := false
          downPointer := some pointer }
      else a
    else i1
  let sigs := if down then [Sig.updatePointerDown pointer.pointerId index] else []
  ({ i2 with pointers := arraySet i2.pointers index pointer }, sigs, index)

/-- `pointerDown(pointer, event, eventTarget)`: registers the contact with
`updatePointer(..., true)` and fires `down` with the contact's index. -/
def pointerDown (i : Interaction) (pointer : Pointer) (event : RawEvent)
    (eventTarget : Nat) (now : Int) : Interaction × List Sig :=
  let r := updatePointer i pointer (some event) eventTarget true now
  (r.1, r.2.1 ++ [Sig.down r.2.2])

/-- `start(action, target, element)`: the precondition gate (already
interacting, no pointer down, or too few held contacts — 2 for a gesture,
1 otherwise — is a silent no-op), then copies the action into `prepared`,
binds target/element, sets `_interacting`, builds the start lifecycle event
from the down event and fires `action-start`, dispatches the event to the
target (which records it as `prevEvent`), and fires `after-action-start`. -/
def start (i : Interaction) (action : Action) (target : Nat) (element : Nat) :
    Interaction × List Sig :=
  if i._interacting || !i.pointerIsDown
      || i.pointerIds.length < (if action.name = "gesture" then 2 else 1) then
    (i, [])
  else
    let i1 := { i with
      prepared := copyAction action
      target := some target
      element := some element
      _interacting := true }
    let startEvent := createPreparedEvent i1 "start" false
    ({ i1 with prevEvent := some startEvent },
     [Sig.actionStart, Sig.targetFire "start", Sig.afterActionStart])

/-- `doMove(signalArg)`: fires `before-action-move`; a listener returning
the `false` sentinel (`beforeMoveVeto = true`) suppresses the move
entirely; otherwise the move lifecycle event is built, `action-move` fires,
the event is dispatched to the target (becoming `prevEvent`) and
`after-action-move` fires. -/
def doMove (i : Interaction) (beforeMoveVeto : Bool) (preEnd : Bool) :
    Interaction × List Sig :=
  if beforeMoveVeto then (i, [Sig.beforeActionMove])
  else
    let moveEvent := createPreparedEvent i "move" preEnd
    ({ i with prevEvent := some moveEvent },
     [Sig.beforeActionMove, Sig.actionMove, Sig.targetFire "move", Sig.afterActionMove])

/-- The opening of `pointerMove`: unless a simulation is active, update the
contact with `updatePointer(..., false)` (which fires no signals) and
recompute `curCoords` from all held contacts. -/
def pointerMoveUpdated (i : Interaction) (pointer : Pointer) (event : RawEvent)
    (eventTarget : Nat) (now : Int) : Interaction :=
  if i.simulation then i
  else
    let i1 := (updatePointer i pointer (some event) eventTarget false now).1
    { i1 with curCoords := setCoords i1.pointers now }

/-- The duplicate-sample test of `pointerMove`: current and previous
snapshots agree in page x/y and client x/y. -/
def duplicateMove (i : Interaction) : Bool :=
  i.curCoords.page == i.prevCoords.page && i.curCoords.client == i.prevCoords.client

/-- The movement-tolerance step of `pointerMove`: while the pointer is down
and `pointerWasMoved` is still false, set it to
`hypot(cur.client − start.client) > pointerMoveTolerance`. -/
def applyMoveTolerance (i : Interaction) : Interaction :=
  if i.pointerIsDown && !i.pointerWasMoved then
    { i with pointerWasMoved :=
        hypotGt (i.curCoords.client.x - i.startCoords.client.x)
                (i.curCoords.client.y - i.startCoords.client.y)
                pointerMoveTolerance }
  else i

/-- `pointerMove(pointer, event, eventTarget)`: update the contact and
`curCoords` (unless simulating), detect a duplicate sample, run the
tolerance check, recompute `pointerDelta` for a non-duplicate, fire `move`
with the `duplicate` flag; for a non-duplicate, additionally run `doMove`
while interacting and, only if `pointerWasMoved`, roll `prevCoords` forward
to `curCoords`. -/
def pointerMove (i : Interaction) (pointer : Pointer) (event : RawEvent)
    (eventTarget : Nat) (now : Int) (beforeMoveVeto : Bool) : Interaction × List Sig :=
  let i1 := pointerMoveUpdated i pointer event eventTarget now
  let dup := duplicateMove i1
  let i2 := applyMoveTolerance i1
  let i3 := if !dup then { i2 with pointerDelta := setCoordDeltas i2.prevCoords i2.curCoords } else i2
  let i4 := if !dup && i3._interacting then (doMove i3 beforeMoveVeto false).1 else i3
  let moveSigs := if !dup && i3._interacting then (doMove i3 beforeMoveVeto false).2 else []
  let i5 := if !dup && i4.pointerWasMoved then { i4 with prevCoords := i4.curCoords } else i4
  (i5, Sig.move dup :: moveSigs)

/-- `stop()`: fires `stop`, then clears target, element, `_interacting`,
`prepared.name` and `prevEvent` (the chained
`this.prepared.name = this.prevEvent = null`); `prepared.axis`/`edges`,
the contact registry and the flags `pointerIsDown`/`pointerWasMoved` are
left as they are. -/
def stop (i : Interaction) : Interaction × List Sig :=
  ({ i with
      target := none
      element := none
      _interacting := false
      prepared := { i.prepared with name := none }
      prevEvent := none },
   [Sig.stop])

/-- `end(event)`: sets the `_ending` guard; if interacting, builds the end
lifecycle event and fires `before-action-end` — a `false` sentinel from a
listener (`beforeEndVeto = true`) clears the guard and returns with
nothing else done — otherwise fires `action-end`, dispatches the event to
the target, fires `after-action-end`; finally (and also when not
interacting at all) clears the guard and calls `stop()`.  (The JS fallback
`event = event || this.prevEvent` only feeds fields of the built event that
the external factory owns, which the embedding does not track.) -/
def endAction (i : Interaction) (beforeEndVeto : Bool) : Interaction × List Sig :=
  let i1 := { i with _ending := true }
  if i1._interacting then
    if beforeEndVeto then
      ({ i1 with _ending := false }, [Sig.beforeActionEnd])
    else
      let endEvent := createPreparedEvent i1 "end" false
      let i2 := { i1 with prevEvent := some endEvent, _ending := false }
      ((stop i2).1,
       [Sig.beforeActionEnd, Sig.actionEnd, Sig.targetFire "end", Sig.afterActionEnd] ++ (stop i2).2)
  else
    ((stop { i1 with _ending := false }).1, (stop { i1 with _ending := false }).2)

/-- `removePointer(pointer, event)`: resolves the contact's index; −1 is a
complete no-op; otherwise fires `remove-pointer` with the index and splices
that index out of the four parallel arrays. -/
def removePointer (i : Interaction) (pointer : Pointer) : Interaction × List Sig :=
  let idx := getPointerIndex i pointer
  if idx = -1 then (i, [])
  else
    let k := idx.toNat
    ({ i with
        pointers := spliceOne i.pointers k
        pointerIds := spliceOne i.pointerIds k
        downTargets := spliceOne i.downTargets k
        downTimes := spliceOne i.downTimes k },
     [Sig.removePointer k])

/-- `pointerUp(pointer, event, eventTarget, curEventTarget)`: fires
`cancel` when the raw event's type matches `/cancel$/i`, else `up`; unless
a simulation is active, calls `end(event)`; then clears `pointerIsDown`
and removes the contact from the registry. -/
def pointerUp (i : Interaction) (pointer : Pointer) (event : RawEvent)
    (beforeEndVeto : Bool) : Interaction × List Sig :=
  let upSig := if isCancelType event.type then Sig.cancel else Sig.up
  let i1 := if !i.simulation then (endAction i beforeEndVeto).1 else i
  let endSigs := if !i.simulation then (endAction i beforeEndVeto).2 else []
  let i2 := { i1 with pointerIsDown := false }
  (( removePointer i2 pointer).1, upSig :: (endSigs ++ (removePointer i2 pointer).2))

/-- The dispatcher scope of `interactions.js`: the pool of live sessions
and the time of the most recent touch event (`scope.prevTouchTime`, for
ignoring the browser's simulated mouse events). -/
structure Scope where
  interactions : List Interaction
  prevTouchTime : Int
deriving DecidableEq, Repr

/-- The loop `interactions[i].pointerType !== 'mouse' &&
interactions[i].pointerIsDown` of `doOnInteractions`: is some live
non-mouse session currently holding a pointer down? -/
def hasActiveNonMouse (l : List Interaction) : Bool :=
  l.any fun it => !(it.pointerType = "mouse") && it.pointerIsDown

/-- The non-touch branch of `doOnInteractions` composed with
`getInteraction`/`newInteraction`: on a platform without pointer-event
support, a mouse-type event is dropped (`invalidPointer`) when a live
non-mouse session has a pointer down, when it arrives within 500ms of the
most recent touch event, or when its `timeStamp` is 0; otherwise one
session is resolved — `resolved` models (from the spec) the combined
result of the external `finder.search` and the vetoable `find` signal
(`signalArg.interaction` after listeners ran): `some k` names the live
session at index `k`, `none` falls through to `newInteraction`, which
appends a fresh session to the pool (its constructor firing `new`).
Returns the updated scope, the indices of the sessions the event is
dispatched to, and the signals fired on the scope-wide bus. -/
def dispatchNonTouch (scope : Scope) (ev : RawEvent) (pointerType : String)
    (supportsPointerEvent : Bool) (now : Int) (resolved : Option Nat) :
    Scope × List Nat × List Sig :=
  let invalidPointer :=
    !supportsPointerEvent && isMouseTypeStr ev.type
      && (hasActiveNonMouse scope.interactions
          || decide (now - scope.prevTouchTime < 500)
          || decide (ev.timeStamp = 0))
  if invalidPointer then (scope, [], [])
  else
    match resolved with
    | some k => (scope, [k], [Sig.find])
    | none =>
      ({ scope with interactions := scope.interactions ++ [mkInteraction pointerType] },
       [scope.interactions.length], [Sig.find, Sig.new])

/-! ## Concrete states used by the witnesses

A single mouse session driven through the spec's end-to-end scenario
(§8): down at (0,0), start a drag, move to (5,5). -/

def wPointer : Pointer := { pointerId := 7, page := { x := 0, y := 0 }, client := { x := 0, y := 0 } }

def wPointer5 : Pointer := { pointerId := 7, page := { x := 5, y := 5 }, client := { x := 5, y := 5 } }

def wDownEvent : RawEvent := { type := "mousedown", timeStamp := 100 }

def wMoveEvent : RawEvent := { type := "mousemove", timeStamp := 120 }

def wUpEvent : RawEvent := { type := "mouseup", timeStamp := 150 }

def wDown : Interaction := (pointerDown (mkInteraction "mouse") wPointer wDownEvent 3 100).1

def wStarted : Interaction := (start wDown { name := "drag" } 1 2).1

/-! ## Frame lemmas -/

/-- `updatePointer` never touches the action state, the kinematic delta,
the guards or the previous lifecycle event. -/
theorem updatePointer_frame (i : Interaction) (p : Pointer) (e : Option RawEvent)
    (t : Nat) (d : Bool) (now : Int) :
    ((updatePointer i p e t d now).1).pointerDelta = i.pointerDelta
    ∧ ((updatePointer i p e t d now).1)._interacting = i._interacting
    ∧ ((updatePointer i p e t d now).1)._ending = i._ending
    ∧ ((updatePointer i p e t d now).1).simulation = i.simulation
    ∧ ((updatePointer i p e t d now).1).pointerType = i.pointerType
    ∧ ((updatePointer i p e t d now).1).target = i.target
    ∧ ((updatePointer i p e t d now).1).element = i.element
    ∧ ((updatePointer i p e t d now).1).prepared = i.prepared
    ∧ ((updatePointer i p e t d now).1).prevEvent = i.prevEvent := by
  simp only [updatePointer]
  split_ifs <;> simp

/-- A non-down `updatePointer` additionally leaves every down-related
field alone. -/
theorem updatePointer_notDown_frame (i : Interaction) (p : Pointer) (e : Option RawEvent)
    (t : Nat) (now : Int) :
    ((updatePointer i p e t false now).1).pointerIsDown = i.pointerIsDown
    ∧ ((updatePointer i p e t false now).1).pointerWasMoved = i.pointerWasMoved
    ∧ ((updatePointer i p e t false now).1).startCoords = i.startCoords
    ∧ ((updatePointer i p e t false now).1).curCoords = i.curCoords
    ∧ ((updatePointer i p e t false now).1).prevCoords = i.prevCoords
    ∧ ((updatePointer i p e t false now).1).downEvent = i.downEvent
    ∧ ((updatePointer i p e t false now).1).downTimes = i.downTimes
    ∧ ((updatePointer i p e t false now).1).downTargets = i.downTargets
    ∧ ((updatePointer i p e t false now).1).downPointer = i.downPointer := by
  simp only [updatePointer]
  split_ifs <;> simp_all

/-- `doMove` only ever changes `prevEvent` (when not vetoed); the state is
otherwise untouched. -/
theorem doMove_state (i : Interaction) (v pe : Bool) :
    (doMove i v pe).1
      = if v then i else { i with prevEvent := some (createPreparedEvent i "move" pe) } := by
  unfold doMove
  split <;> simp

/-- Every field but `prevEvent` survives `doMove` unchanged. -/
theorem doMove_frame (i : Interaction) (v pe : Bool) :
    ((doMove i v pe).1).pointerWasMoved = i.pointerWasMoved
    ∧ ((doMove i v pe).1).pointerIsDown = i.pointerIsDown
    ∧ ((doMove i v pe).1).prevCoords = i.prevCoords
    ∧ ((doMove i v pe).1).curCoords = i.curCoords
    ∧ ((doMove i v pe).1).startCoords = i.startCoords
    ∧ ((doMove i v pe).1).pointerDelta = i.pointerDelta
    ∧ ((doMove i v pe).1)._interacting = i._interacting
    ∧ ((doMove i v pe).1).prepared = i.prepared
    ∧ ((doMove i v pe).1).target = i.target
    ∧ ((doMove i v pe).1).element = i.element
    ∧ ((doMove i v pe).1).pointers = i.pointers
    ∧ ((doMove i v pe).1).pointerIds = i.pointerIds
    ∧ ((doMove i v pe).1).downTimes = i.downTimes
    ∧ ((doMove i v pe).1).downTargets = i.downTargets
    ∧ ((doMove i v pe).1).pointerType = i.pointerType
    ∧ ((doMove i v pe).1).simulation = i.simulation := by
  unfold doMove
  split <;> simp

/-- The opening update step of `pointerMove` does not touch the kinematic
delta, the previous/start snapshots, the flags or the action state. -/
theorem pointerMoveUpdated_frame (i : Interaction) (p : Pointer) (e : RawEvent)
    (t : Nat) (now : Int) :
    (pointerMoveUpdated i p e t now).pointerDelta = i.pointerDelta
    ∧ (pointerMoveUpdated i p e t now).prevCoords = i.prevCoords
    ∧ (pointerMoveUpdated i p e t now).startCoords = i.startCoords
    ∧ (pointerMoveUpdated i p e t now).pointerIsDown = i.pointerIsDown
    ∧ (pointerMoveUpdated i p e t now).pointerWasMoved = i.pointerWasMoved
    ∧ (pointerMoveUpdated i p e t now)._interacting = i._interacting
    ∧ (pointerMoveUpdated i p e t now).prevEvent = i.prevEvent := by
  obtain ⟨h1, h2, h3, h4, h5, h6, h7, h8, h9⟩ :=
    updatePointer_frame i p (some e) t false now
  obtain ⟨g1, g2, g3, g4, g5, g6, g7, g8, g9⟩ :=
    updatePointer_notDown_frame i p (some e) t now
  unfold pointerMoveUpdated
  split
  · simp
  · simp [h1, h2, h9, g1, g2, g3, g5, g4]

/-- The tolerance step of `pointerMove` only ever changes
`pointerWasMoved`. -/
theorem applyMoveTolerance_frame (i : Interaction) :
    (applyMoveTolerance i).pointerDelta = i.pointerDelta
    ∧ (applyMoveTolerance i).prevCoords = i.prevCoords
    ∧ (applyMoveTolerance i).curCoords = i.curCoords
    ∧ (applyMoveTolerance i).startCoords = i.startCoords
    ∧ (applyMoveTolerance i)._interacting = i._interacting
    ∧ (applyMoveTolerance i).pointerIsDown = i.pointerIsDown
    ∧ (applyMoveTolerance i).prevEvent = i.prevEvent := by
  unfold applyMoveTolerance
  split <;> simp

/-- The value `pointerWasMoved` takes after the tolerance step: it turns
(or stays) true exactly when it was already true, or the pointer is down
and the client-space distance from the start position exceeds the
tolerance. -/
theorem applyMoveTolerance_flag (i : Interaction) :
    (applyMoveTolerance i).pointerWasMoved
      = (i.pointerWasMoved
          || (i.pointerIsDown
              && hypotGt (i.curCoords.client.x - i.startCoords.client.x)
                   (i.curCoords.client.y - i.startCoords.client.y) pointerMoveTolerance)) := by
  unfold applyMoveTolerance
  cases hd : i.pointerIsDown <;> cases hw : i.pointerWasMoved <;> simp [hd, hw]

/-- `start` never touches the contact registry, the coordinate snapshots
or the motion flags. -/
theorem start_frame (i : Interaction) (a : Action) (t el : Nat) :
    ((start i a t el).1).pointerWasMoved = i.pointerWasMoved
    ∧ ((start i a t el).1).pointerIsDown = i.pointerIsDown
    ∧ ((start i a t el).1).pointers = i.pointers
    ∧ ((start i a t el).1).pointerIds = i.pointerIds
    ∧ ((start i a t el).1).downTimes = i.downTimes
    ∧ ((start i a t el).1).downTargets = i.downTargets
    ∧ ((start i a t el).1).prevCoords = i.prevCoords
    ∧ ((start i a t el).1).curCoords = i.curCoords
    ∧ ((start i a t el).1).startCoords = i.startCoords
    ∧ ((start i a t el).1).pointerType = i.pointerType
    ∧ ((start i a t el).1).simulation = i.simulation := by
  unfold start
  split_ifs <;> simp

/-- `stop` never touches the contact registry, the coordinate snapshots,
the motion flags or the guard. -/
theorem stop_frame (i : Interaction) :
    ((stop i).1).pointerWasMoved = i.pointerWasMoved
    ∧ ((stop i).1).pointerIsDown = i.pointerIsDown
    ∧ ((stop i).1).pointers = i.pointers
    ∧ ((stop i).1).pointerIds = i.pointerIds
    ∧ ((stop i).1).downTimes = i.downTimes
    ∧ ((stop i).1).downTargets = i.downTargets
    ∧ ((stop i).1).pointerType = i.pointerType
    ∧ ((stop i).1).simulation = i.simulation
    ∧ ((stop i).1)._ending = i._ending :=
  ⟨rfl, rfl, rfl, rfl, rfl, rfl, rfl, rfl, rfl⟩

/-- `end` never touches the contact registry, the coordinate snapshots,
the motion flags or `pointerIsDown`. -/
theorem endAction_frame (i : Interaction) (v : Bool) :
    ((endAction i v).1).pointerWasMoved = i.pointerWasMoved
    ∧ ((endAction i v).1).pointerIsDown = i.pointerIsDown
    ∧ ((endAction i v).1).pointers = i.pointers
    ∧ ((endAction i v).1).pointerIds = i.pointerIds
    ∧ ((endAction i v).1).downTimes = i.downTimes
    ∧ ((endAction i v).1).downTargets = i.downTargets
    ∧ ((endAction i v).1).pointerType = i.pointerType
    ∧ ((endAction i v).1).simulation = i.simulation := by
  simp only [endAction, stop]
  split_ifs <;> simp_all

/-- `removePointer` never touches the action state, the flags, the
coordinate snapshots or the guard. -/
theorem removePointer_frame (i : Interaction) (p : Pointer) :
    ((removePointer i p).1).pointerWasMoved = i.pointerWasMoved
    ∧ ((removePointer i p).1).pointerIsDown = i.pointerIsDown
    ∧ ((removePointer i p).1)._interacting = i._interacting
    ∧ ((removePointer i p).1).prepared = i.prepared
    ∧ ((removePointer i p).1).target = i.target
    ∧ ((removePointer i p).1).element = i.element
    ∧ ((removePointer i p).1).prevCoords = i.prevCoords
    ∧ ((removePointer i p).1).curCoords = i.curCoords
    ∧ ((removePointer i p).1).startCoords = i.startCoords
    ∧ ((removePointer i p).1).pointerType = i.pointerType
    ∧ ((removePointer i p).1).simulation = i.simulation := by
  simp only [removePointer]
  split_ifs <;> simp

/-- The value `pointerWasMoved` takes after `updatePointer`: it is cleared
exactly by a down on a not-interacting session and untouched otherwise. -/
theorem updatePointer_flag (i : Interaction) (p : Pointer) (e : Option RawEvent)
    (t : Nat) (d : Bool) (now : Int) :
    ((updatePointer i p e t d now).1).pointerWasMoved
      = if d && !i._interacting then false else i.pointerWasMoved := by
  simp only [updatePointer]
  split_ifs <;> simp_all

/-- The value `pointerWasMoved` takes after `pointerMove`: it turns (or
stays) true exactly when it was already true, or the pointer is down and
the updated current client position is farther than the tolerance from the
start client position. -/
theorem pointerMove_flag (i : Interaction) (p : Pointer) (e : RawEvent)
    (t : Nat) (now : Int) (v : Bool) :
    ((pointerMove i p e t now v).1).pointerWasMoved
      = (i.pointerWasMoved
          || (i.pointerIsDown
              && hypotGt
                  ((pointerMoveUpdated i p e t now).curCoords.client.x - i.startCoords.client.x)
                  ((pointerMoveUpdated i p e t now).curCoords.client.y - i.startCoords.client.y)
                  pointerMoveTolerance)) := by
  obtain ⟨u1, u2, u3, u4, u5, u6, u7⟩ := pointerMoveUpdated_frame i p e t now
  have ha := applyMoveTolerance_flag (pointerMoveUpdated i p e t now)
  rw [u3, u4, u5] at ha
  have hd := fun j => (doMove_frame j v false).1
  simp only [pointerMove]
  split_ifs <;> simp_all

/-! ## C1 -/

/-- C1: a `start(action, target, element)` call on a session that is
already interacting, or whose pointer is not down, or that holds fewer
contact identifiers than the action needs (2 for `gesture`, 1 otherwise),
returns with the state completely unchanged and fires no signal — in
particular no `action-start`. -/
theorem C1_start_precondition_silent_noop (i : Interaction) (action : Action)
    (target element : Nat)
    (h : i._interacting = true ∨ i.pointerIsDown = false
      ∨ i.pointerIds.length < (if action.name = "gesture" then 2 else 1)) :
    start i action target element = (i, []) := by
  unfold start
  rcases h with h | h | h <;> simp [h]

/-- Witness for C1: a fresh mouse session has no pointer down and a
gesture start there is a silent no-op. -/
theorem C1_witness :
    (mkInteraction "mouse").pointerIsDown = false
    ∧ start (mkInteraction "mouse") { name := "gesture" } 1 2 = (mkInteraction "mouse", []) :=
  ⟨rfl, C1_start_precondition_silent_noop _ _ _ _ (Or.inr (Or.inl rfl))⟩

/-! ## C2 -/

/-- C2: when a `before-action-end` listener returns the `false` sentinel
during `end` on an interacting session, the end aborts atomically — the
session stays interacting with `prepared`/`target`/`element` untouched,
the `_ending` guard is cleared, neither `action-end` nor
`after-action-end` fires, `stop()` is not reached — and a subsequent
un-vetoed `end` still completes the interaction. -/
theorem C2_before_end_veto_aborts (i : Interaction) (h : i._interacting = true) :
    endAction i true = ({ i with _ending := false }, [Sig.beforeActionEnd])
    ∧ ((endAction i true).1)._interacting = true
    ∧ ((endAction i true).1).prepared = i.prepared
    ∧ ((endAction i true).1).target = i.target
    ∧ ((endAction i true).1).element = i.element
    ∧ ((endAction i true).1)._ending = false
    ∧ Sig.actionEnd ∉ (endAction i true).2
    ∧ Sig.afterActionEnd ∉ (endAction i true).2
    ∧ Sig.stop ∉ (endAction i true).2
    ∧ ((endAction (endAction i true).1 false).1)._interacting = false
    ∧ Sig.actionEnd ∈ (endAction (endAction i true).1 false).2 := by
  unfold endAction stop
  simp [h]

/-- Witness for C2 at the started drag session. -/
theorem C2_witness :
    wStarted._interacting = true
    ∧ Sig.actionEnd ∉ (endAction wStarted true).2
    ∧ ((endAction (endAction wStarted true).1 false).1)._interacting = false :=
  ⟨by decide,
   (C2_before_end_veto_aborts wStarted (by decide)).2.2.2.2.2.2.1,
   (C2_before_end_veto_aborts wStarted (by decide)).2.2.2.2.2.2.2.2.2.1⟩

/-! ## C3 -/

/-- C3: a `pointerMove` whose updated current coordinates equal the
previous snapshot in page and client space is a duplicate: the kinematic
delta is not recomputed (it stays exactly what it was) and `doMove` is not
invoked — the whole signal log is just `move` with `duplicate: true`, so
no `action-move` — while a non-duplicate sample recomputes the delta from
the previous and updated current snapshots before `move` fires with
`duplicate: false`. -/
theorem C3_duplicate_move_suppression (i : Interaction) (p : Pointer) (e : RawEvent)
    (t : Nat) (now : Int) (v : Bool) :
    (duplicateMove (pointerMoveUpdated i p e t now) = true →
      pointerMove i p e t now v
        = (applyMoveTolerance (pointerMoveUpdated i p e t now), [Sig.move true])
      ∧ ((pointerMove i p e t now v).1).pointerDelta = i.pointerDelta
      ∧ Sig.actionMove ∉ (pointerMove i p e t now v).2)
    ∧ (duplicateMove (pointerMoveUpdated i p e t now) = false →
      ((pointerMove i p e t now v).1).pointerDelta
        = setCoordDeltas (pointerMoveUpdated i p e t now).prevCoords
            (pointerMoveUpdated i p e t now).curCoords
      ∧ (pointerMove i p e t now v).2.head? = some (Sig.move false)) := by
  obtain ⟨u1, u2, u3, u4, u5, u6, u7⟩ := pointerMoveUpdated_frame i p e t now
  obtain ⟨a1, a2, a3, a4, a5, a6, a7⟩ :=
    applyMoveTolerance_frame (pointerMoveUpdated i p e t now)
  constructor
  · intro hdup
    have hpm : pointerMove i p e t now v
        = (applyMoveTolerance (pointerMoveUpdated i p e t now), [Sig.move true]) := by
      simp only [pointerMove, hdup]
      simp
    refine ⟨hpm, ?_, ?_⟩
    · rw [hpm]
      rw [a1, u1]
    · rw [hpm]
      simp
  · intro hdup
    constructor
    · simp only [pointerMove, hdup]
      simp only [Bool.not_false, Bool.true_and, if_true]
      split_ifs <;> simp [doMove_state, a2, a3] <;> split_ifs <;> simp
    · simp only [pointerMove, hdup]
      simp

/-- Witness for C3: after the drag has moved to (5,5), a second move
sample at the same coordinates is a duplicate and fires only
`move (duplicate := true)`. -/
theorem C3_witness :
    duplicateMove (pointerMoveUpdated
        ((pointerMove wStarted wPointer5 wMoveEvent 3 120 false).1)
        wPointer5 wMoveEvent 3 130) = true
    ∧ (pointerMove ((pointerMove wStarted wPointer5 wMoveEvent 3 120 false).1)
        wPointer5 wMoveEvent 3 130 false).2 = [Sig.move true] :=
  ⟨by decide,
   by rw [(C3_duplicate_move_suppression
        ((pointerMove wStarted wPointer5 wMoveEvent 3 120 false).1)
        wPointer5 wMoveEvent 3 130 false).1 (by decide) |>.1]⟩

/-! ## C7 -/

/-- C7: `prevCoords` is rolled forward to the updated current snapshot
only by a non-duplicate `pointerMove` whose tolerance check left
`pointerWasMoved` true; duplicate moves, and non-duplicate moves while
`pointerWasMoved` is still false, leave `prevCoords` exactly as it was
(the down-position reference). -/
theorem C7_prevCoords_rollforward (i : Interaction) (p : Pointer) (e : RawEvent)
    (t : Nat) (now : Int) (v : Bool) :
    (pointerMoveUpdated i p e t now).prevCoords = i.prevCoords
    ∧ (duplicateMove (pointerMoveUpdated i p e t now) = true →
        ((pointerMove i p e t now v).1).prevCoords = i.prevCoords)
    ∧ (duplicateMove (pointerMoveUpdated i p e t now) = false →
        ((pointerMove i p e t now v).1).pointerWasMoved = false →
        ((pointerMove i p e t now v).1).prevCoords = i.prevCoords)
    ∧ (duplicateMove (pointerMoveUpdated i p e t now) = false →
        ((pointerMove i p e t now v).1).pointerWasMoved = true →
        ((pointerMove i p e t now v).1).prevCoords
          = (pointerMoveUpdated i p e t now).curCoords) := by
  obtain ⟨u1, u2, u3, u4, u5, u6, u7⟩ := pointerMoveUpdated_frame i p e t now
  obtain ⟨a1, a2, a3, a4, a5, a6, a7⟩ :=
    applyMoveTolerance_frame (pointerMoveUpdated i p e t now)
  refine ⟨u2, fun hdup => ?_, fun hdup => ?_, fun hdup => ?_⟩
  · simp only [pointerMove, hdup]
    simp [a2, u2]
  · simp only [pointerMove, hdup]
    simp only [Bool.not_false, Bool.true_and, if_true]
    split_ifs <;> simp_all [doMove_state] <;> split_ifs at * <;> simp_all
  · simp only [pointerMove, hdup]
    simp only [Bool.not_false, Bool.true_and, if_true]
    split_ifs <;> simp_all [doMove_state] <;> split_ifs at * <;> simp_all

/-- Witness for C7: the first real move (0,0) → (5,5) exceeds the
tolerance, so `prevCoords` is rolled forward to the new current
snapshot. -/
theorem C7_witness :
    duplicateMove (pointerMoveUpdated wStarted wPointer5 wMoveEvent 3 120) = false
    ∧ ((pointerMove wStarted wPointer5 wMoveEvent 3 120 false).1).pointerWasMoved = true
    ∧ ((pointerMove wStarted wPointer5 wMoveEvent 3 120 false).1).prevCoords
        = (pointerMoveUpdated wStarted wPointer5 wMoveEvent 3 120).curCoords :=
  ⟨by decide, by decide,
   (C7_prevCoords_rollforward wStarted wPointer5 wMoveEvent 3 120 false).2.2.2
     (by decide) (by decide)⟩

/-! ## C4 -/

/-- C4: across all public operations, `pointerWasMoved` becomes true only
through a `pointerMove` on a session whose pointer is down and whose
updated client position lies farther than the tolerance 1 from the start
client position (and once true it stays true through every operation,
so the false→true transition happens at most once per down-cycle); the
only reset to false is `updatePointer` with `isDown` (hence
`pointerDown`) on a session that is not interacting. -/
theorem C4_pointerWasMoved_lifecycle :
    pointerMoveTolerance = 1
    ∧ (∀ (i : Interaction) (p : Pointer) (e : Option RawEvent) (t : Nat) (d : Bool) (now : Int),
        ((updatePointer i p e t d now).1).pointerWasMoved
          = if d && !i._interacting then false else i.pointerWasMoved)
    ∧ (∀ (i : Interaction) (p : Pointer) (e : RawEvent) (t : Nat) (now : Int),
        ((pointerDown i p e t now).1).pointerWasMoved
          = if !i._interacting then false else i.pointerWasMoved)
    ∧ (∀ (i : Interaction) (p : Pointer) (e : RawEvent) (t : Nat) (now : Int) (v : Bool),
        ((pointerMove i p e t now v).1).pointerWasMoved
          = (i.pointerWasMoved
              || (i.pointerIsDown
                  && hypotGt
                      ((pointerMoveUpdated i p e t now).curCoords.client.x - i.startCoords.client.x)
                      ((pointerMoveUpdated i p e t now).curCoords.client.y - i.startCoords.client.y)
                      pointerMoveTolerance)))
    ∧ (∀ (i : Interaction) (a : Action) (t el : Nat),
        ((start i a t el).1).pointerWasMoved = i.pointerWasMoved)
    ∧ (∀ (i : Interaction) (v pe : Bool),
        ((doMove i v pe).1).pointerWasMoved = i.pointerWasMoved)
    ∧ (∀ (i : Interaction) (v : Bool),
        ((endAction i v).1).pointerWasMoved = i.pointerWasMoved)
    ∧ (∀ i : Interaction, ((stop i).1).pointerWasMoved = i.pointerWasMoved)
    ∧ (∀ (i : Interaction) (p : Pointer),
        ((removePointer i p).1).pointerWasMoved = i.pointerWasMoved)
    ∧ (∀ (i : Interaction) (p : Pointer) (e : RawEvent) (v : Bool),
        ((pointerUp i p e v).1).pointerWasMoved = i.pointerWasMoved) := by
  refine ⟨rfl, updatePointer_flag, ?_, pointerMove_flag,
    fun i a t el => (start_frame i a t el).1,
    fun i v pe => (doMove_frame i v pe).1,
    fun i v => (endAction_frame i v).1,
    fun i => (stop_frame i).1,
    fun i p => (removePointer_frame i p).1,
    ?_⟩
  · intro i p e t now
    unfold pointerDown
    rw [updatePointer_flag]
    simp
  · intro i p e v
    unfold pointerUp
    have h1 := (endAction_frame i v).1
    have h2 := (removePointer_frame
      { (if !i.simulation then (endAction i v).1 else i) with pointerIsDown := false } p).1
    split_ifs at * <;> simp_all

/-! ## C5 -/

/-- The session states reachable from a fresh session through the public
operations, with arbitrary arguments. -/
inductive Reachable : Interaction → Prop where
  | init (pt : String) : Reachable (mkInteraction pt)
  | pointerDownOp (i : Interaction) (p : Pointer) (e : RawEvent) (t : Nat) (now : Int) :
      Reachable i → Reachable (pointerDown i p e t now).1
  | startOp (i : Interaction) (a : Action) (t el : Nat) :
      Reachable i → Reachable (start i a t el).1
  | pointerMoveOp (i : Interaction) (p : Pointer) (e : RawEvent) (t : Nat) (now : Int) (v : Bool) :
      Reachable i → Reachable (pointerMove i p e t now v).1
  | doMoveOp (i : Interaction) (v pe : Bool) :
      Reachable i → Reachable (doMove i v pe).1
  | pointerUpOp (i : Interaction) (p : Pointer) (e : RawEvent) (v : Bool) :
      Reachable i → Reachable (pointerUp i p e v).1
  | endOp (i : Interaction) (v : Bool) :
      Reachable i → Reachable (endAction i v).1
  | stopOp (i : Interaction) :
      Reachable i → Reachable (stop i).1

/-- `pointerMoveUpdated` leaves the prepared action untouched. -/
theorem pointerMoveUpdated_prepared (i : Interaction) (p : Pointer) (e : RawEvent)
    (t : Nat) (now : Int) :
    (pointerMoveUpdated i p e t now).prepared = i.prepared := by
  have h := (updatePointer_frame i p (some e) t false now).2.2.2.2.2.2.2.1
  unfold pointerMoveUpdated
  split
  · rfl
  · simpa using h

/-- The tolerance step leaves the prepared action untouched. -/
theorem applyMoveTolerance_prepared (i : Interaction) :
    (applyMoveTolerance i).prepared = i.prepared := by
  unfold applyMoveTolerance
  split <;> rfl

/-- `pointerMove` leaves the interacting flag and the prepared action
untouched. -/
theorem pointerMove_action_frame (i : Interaction) (p : Pointer) (e : RawEvent)
    (t : Nat) (now : Int) (v : Bool) :
    ((pointerMove i p e t now v).1)._interacting = i._interacting
    ∧ ((pointerMove i p e t now v).1).prepared = i.prepared := by
  obtain ⟨u1, u2, u3, u4, u5, u6, u7⟩ := pointerMoveUpdated_frame i p e t now
  have up := pointerMoveUpdated_prepared i p e t now
  have ap := applyMoveTolerance_prepared (pointerMoveUpdated i p e t now)
  have a5 := (applyMoveTolerance_frame (pointerMoveUpdated i p e t now)).2.2.2.2.1
  have hdi : ∀ j : Interaction, ((doMove j v false).1)._interacting = j._interacting :=
    fun j => (doMove_frame j v false).2.2.2.2.2.2.1
  have hdp : ∀ j : Interaction, ((doMove j v false).1).prepared = j.prepared :=
    fun j => (doMove_frame j v false).2.2.2.2.2.2.2.1
  simp only [pointerMove]
  split_ifs <;> simp_all

/-- Preservation of the C5 invariant by each public operation. -/
theorem inv_preserved :
    (∀ (i : Interaction) (p : Pointer) (e : RawEvent) (t : Nat) (now : Int),
      (i._interacting = true → i.prepared.name ≠ none) →
      ((pointerDown i p e t now).1)._interacting = true →
      ((pointerDown i p e t now).1).prepared.name ≠ none)
    ∧ (∀ (i : Interaction) (a : Action) (t el : Nat),
      (i._interacting = true → i.prepared.name ≠ none) →
      ((start i a t el).1)._interacting = true →
      ((start i a t el).1).prepared.name ≠ none)
    ∧ (∀ (i : Interaction) (p : Pointer) (e : RawEvent) (t : Nat) (now : Int) (v : Bool),
      (i._interacting = true → i.prepared.name ≠ none) →
      ((pointerMove i p e t now v).1)._interacting = true →
      ((pointerMove i p e t now v).1).prepared.name ≠ none)
    ∧ (∀ (i : Interaction) (v pe : Bool),
      (i._interacting = true → i.prepared.name ≠ none) →
      ((doMove i v pe).1)._interacting = true →
      ((doMove i v pe).1).prepared.name ≠ none)
    ∧ (∀ (i : Interaction) (p : Pointer) (e : RawEvent) (v : Bool),
      (i._interacting = true → i.prepared.name ≠ none) →
      ((pointerUp i p e v).1)._interacting = true →
      ((pointerUp i p e v).1).prepared.name ≠ none)
    ∧ (∀ (i : Interaction) (v : Bool),
      (i._interacting = true → i.prepared.name ≠ none) →
      ((endAction i v).1)._interacting = true →
      ((endAction i v).1).prepared.name ≠ none)
    ∧ (∀ i : Interaction,
      (i._interacting = true → i.prepared.name ≠ none) →
      ((stop i).1)._interacting = true →
      ((stop i).1).prepared.name ≠ none) := by
  have hend : ∀ (i : Interaction) (v : Bool),
      (i._interacting = true → i.prepared.name ≠ none) →
      ((endAction i v).1)._interacting = true →
      ((endAction i v).1).prepared.name ≠ none := by
    intro i v h
    simp only [endAction, stop]
    split_ifs <;> simp_all
  have hrem : ∀ (i : Interaction) (p : Pointer),
      (i._interacting = true → i.prepared.name ≠ none) →
      ((removePointer i p).1)._interacting = true →
      ((removePointer i p).1).prepared.name ≠ none := by
    intro i p h
    have h1 := (removePointer_frame i p).2.2.1
    have h2 := (removePointer_frame i p).2.2.2.1
    rw [h1, h2]
    exact h
  refine ⟨?_, ?_, ?_, ?_, ?_, hend, ?_⟩
  · intro i p e t now h
    have h1 := (updatePointer_frame i p (some e) t true now).2.1
    have h2 := (updatePointer_frame i p (some e) t true now).2.2.2.2.2.2.2.1
    unfold pointerDown
    rw [h1, h2]
    exact h
  · intro i a t el h
    unfold start
    split_ifs <;> first
      | exact h
      | (intro hi; simp [copyAction])
  · intro i p e t now v h
    obtain ⟨h1, h2⟩ := pointerMove_action_frame i p e t now v
    rw [h1, h2]
    exact h
  · intro i v pe h
    have h1 := (doMove_frame i v pe).2.2.2.2.2.2.1
    have h2 := (doMove_frame i v pe).2.2.2.2.2.2.2.1
    rw [h1, h2]
    exact h
  · intro i p e v h
    unfold pointerUp
    apply hrem
    cases hs : i.simulation with
    | true => simpa [hs] using h
    | false => simpa [hs] using hend i v h
  · intro i h hi
    simp only [stop] at hi
    simp at hi

/-- C5: in every state reachable through the public operations,
`_interacting` is true only while `prepared.name` is non-null, and
`stop()` clears both together. -/
theorem C5_interacting_implies_prepared :
    (∀ i : Interaction, Reachable i →
      i._interacting = true → i.prepared.name ≠ none)
    ∧ (∀ i : Interaction,
      ((stop i).1)._interacting = false ∧ ((stop i).1).prepared.name = none) := by
  obtain ⟨hd, hs, hm, hdm, hu, he, hst⟩ := inv_preserved
  constructor
  · intro i hr
    induction hr with
    | init pt => intro h; simp [mkInteraction] at h
    | pointerDownOp i p e t now _ ih => exact hd i p e t now ih
    | startOp i a t el _ ih => exact hs i a t el ih
    | pointerMoveOp i p e t now v _ ih => exact hm i p e t now v ih
    | doMoveOp i v pe _ ih => exact hdm i v pe ih
    | pointerUpOp i p e v _ ih => exact hu i p e v ih
    | endOp i v _ ih => exact he i v ih
    | stopOp i _ ih => exact hst i ih
  · intro i
    exact ⟨rfl, rfl⟩

/-- Witness for C5: the started drag session is reachable, interacting,
and its prepared name is non-null. -/
theorem C5_witness :
    wStarted._interacting = true ∧ wStarted.prepared.name ≠ none :=
  ⟨by decide,
   C5_interacting_implies_prepared.1 wStarted
     (Reachable.startOp _ _ _ _
       (Reachable.pointerDownOp _ _ _ _ _ (Reachable.init "mouse")))
     (by decide)⟩

/-! ## C6 -/

/-- Length of a JavaScript array write: in-bounds keeps the length,
out-of-bounds extends to `i + 1`. -/
theorem arraySet_length {α : Type} (l : List (Option α)) (i : Nat) (v : α) :
    (arraySet l i v).length = max l.length (i + 1) := by
  unfold arraySet
  split
  · simp
    omega
  · simp
    omega

/-- Length of a JavaScript one-element splice. -/
theorem spliceOne_length {α : Type} (l : List α) (i : Nat) :
    (spliceOne l i).length = if i < l.length then l.length - 1 else l.length := by
  unfold spliceOne
  rw [List.length_append, List.length_take, List.length_drop]
  split_ifs <;> omega

/-- `jsIndexOf` returns −1 or a nonnegative index. -/
theorem jsIndexOf_nonneg_or {α : Type} [DecidableEq α] (l : List α) (v : α) :
    jsIndexOf l v = -1 ∨ 0 ≤ jsIndexOf l v := by
  induction l with
  | nil => left; rfl
  | cons a t ih =>
    simp only [jsIndexOf]
    split_ifs with h1 h2
    · right; omega
    · left; rfl
    · right
      rcases ih with h | h
      · exact absurd h h2
      · omega

/-- `jsIndexOf` is −1 exactly when the value is absent. -/
theorem jsIndexOf_neg1_iff {α : Type} [DecidableEq α] (l : List α) (v : α) :
    jsIndexOf l v = -1 ↔ v ∉ l := by
  induction l with
  | nil => simp [jsIndexOf]
  | cons a t ih =>
    simp only [jsIndexOf]
    by_cases h : a = v
    · simp [h]
    · rw [if_neg h]
      split_ifs with hr

      · have hvt := ih.mp hr
        simp [hvt]
        exact fun he => h he.symm
      · rcases jsIndexOf_nonneg_or t v with h0 | h0
        · exact absurd h0 hr
        · have hv : v ∈ t := by
            by_contra hvt
            exact hr (ih.mpr hvt)
          constructor
          · intro he
            omega
          · intro habs
            exact absurd (List.mem_cons_of_mem a hv) habs

/-- A found `jsIndexOf` is a valid position. -/
theorem jsIndexOf_lt_length {α : Type} [DecidableEq α] (l : List α) (v : α)
    (h : jsIndexOf l v ≠ -1) : (jsIndexOf l v).toNat < l.length := by
  induction l with
  | nil => exact absurd rfl h
  | cons a t ih =>
    simp only [jsIndexOf] at h ⊢
    split_ifs at h ⊢ with h1 h2
    · simp
    · exact absurd rfl h
    · have hlt := ih h2
      rcases jsIndexOf_nonneg_or t v with h0 | h0
      · exact absurd h0 h2
      · simp only [List.length_cons]
        omega

/-- Index alignment of the four parallel contact arrays: every held
contact occupies the same index in all four, i.e. all four have equal
length. -/
def registryAligned (i : Interaction) : Prop :=
  i.pointers.length = i.pointerIds.length
  ∧ i.downTimes.length = i.pointerIds.length
  ∧ i.downTargets.length = i.pointerIds.length

instance (i : Interaction) : Decidable (registryAligned i) := by
  unfold registryAligned
  infer_instance

/-- On a touch session, `getPointerIndex` is the identifier lookup. -/
theorem getPointerIndex_touch (i : Interaction) (p : Pointer)
    (hm : i.pointerType ≠ "mouse") (hp : i.pointerType ≠ "pen") :
    getPointerIndex i p = jsIndexOf i.pointerIds (some p.pointerId) := by
  unfold getPointerIndex
  rw [if_neg]
  simp [hm, hp]

/-- Counterexample to C6 as stated: a single public operation —
`updatePointer` with `down = false` (exactly what `pointerMove` performs)
on a fresh touch session — extends `pointerIds`/`pointers` without
extending `downTimes`/`downTargets`, so the four arrays no longer have
equal length. -/
theorem C6_counterexample :
    ¬ registryAligned ((updatePointer (mkInteraction "touch") wPointer none 0 false 0).1)
    ∧ (((updatePointer (mkInteraction "touch") wPointer none 0 false 0).1).pointerIds.length = 1
        ∧ ((updatePointer (mkInteraction "touch") wPointer none 0 false 0).1).downTimes.length = 0) := by
  constructor
  · decide
  · constructor
    · decide
    · decide

/-- A down-update on a not-interacting touch session preserves index
alignment (all four arrays are written at the same slot). -/
theorem updatePointer_down_aligned (i : Interaction) (p : Pointer) (e : Option RawEvent)
    (t : Nat) (now : Int)
    (hm : i.pointerType ≠ "mouse") (hp : i.pointerType ≠ "pen")
    (hni : i._interacting = false) (hal : registryAligned i) :
    registryAligned ((updatePointer i p e t true now).1) := by
  obtain ⟨h1, h2, h3⟩ := hal
  have hg := getPointerIndex_touch i p hm hp
  simp only [updatePointer, hg]
  by_cases hidx : jsIndexOf i.pointerIds (some p.pointerId) = -1
  · simp [hidx, hni, registryAligned, arraySet_length]
    omega
  · have hlt := jsIndexOf_lt_length _ _ hidx
    simp [hidx, hni, registryAligned, arraySet_length]
    omega

/-- A non-down update of an already-registered contact on a touch session
preserves index alignment (every write is in-bounds). -/
theorem updatePointer_move_aligned (i : Interaction) (p : Pointer) (e : Option RawEvent)
    (t : Nat) (now : Int)
    (hm : i.pointerType ≠ "mouse") (hp : i.pointerType ≠ "pen")
    (hmem : some p.pointerId ∈ i.pointerIds) (hal : registryAligned i) :
    registryAligned ((updatePointer i p e t false now).1) := by
  obtain ⟨h1, h2, h3⟩ := hal
  have hidx : jsIndexOf i.pointerIds (some p.pointerId) ≠ -1 := by
    rw [Ne, jsIndexOf_neg1_iff]
    exact fun h => h hmem
  have hlt := jsIndexOf_lt_length _ _ hidx
  have hg := getPointerIndex_touch i p hm hp
  simp only [updatePointer, hg]
  simp [hidx, registryAligned, arraySet_length]
  omega

/-- The tolerance step never touches the contact arrays. -/
theorem applyMoveTolerance_arrays (i : Interaction) :
    (applyMoveTolerance i).pointers = i.pointers
    ∧ (applyMoveTolerance i).pointerIds = i.pointerIds
    ∧ (applyMoveTolerance i).downTimes = i.downTimes
    ∧ (applyMoveTolerance i).downTargets = i.downTargets := by
  unfold applyMoveTolerance
  split <;> simp

/-- After the opening update step, `pointerMove` never touches the contact
arrays again. -/
theorem pointerMove_arrays (i : Interaction) (p : Pointer) (e : RawEvent)
    (t : Nat) (now : Int) (v : Bool) :
    ((pointerMove i p e t now v).1).pointers = (pointerMoveUpdated i p e t now).pointers
    ∧ ((pointerMove i p e t now v).1).pointerIds = (pointerMoveUpdated i p e t now).pointerIds
    ∧ ((pointerMove i p e t now v).1).downTimes = (pointerMoveUpdated i p e t now).downTimes
    ∧ ((pointerMove i p e t now v).1).downTargets = (pointerMoveUpdated i p e t now).downTargets := by
  obtain ⟨a1, a2, a3, a4⟩ := applyMoveTolerance_arrays (pointerMoveUpdated i p e t now)
  have d1 : ∀ j : Interaction, ((doMove j v false).1).pointers = j.pointers :=
    fun j => (doMove_frame j v false).2.2.2.2.2.2.2.2.2.2.1
  have d2 : ∀ j : Interaction, ((doMove j v false).1).pointerIds = j.pointerIds :=
    fun j => (doMove_frame j v false).2.2.2.2.2.2.2.2.2.2.2.1
  have d3 : ∀ j : Interaction, ((doMove j v false).1).downTimes = j.downTimes :=
    fun j => (doMove_frame j v false).2.2.2.2.2.2.2.2.2.2.2.2.1
  have d4 : ∀ j : Interaction, ((doMove j v false).1).downTargets = j.downTargets :=
    fun j => (doMove_frame j v false).2.2.2.2.2.2.2.2.2.2.2.2.2.1
  simp only [pointerMove]
  split_ifs <;> simp_all

/-- `removePointer` splices all four arrays at the same index, preserving
index alignment. -/
theorem removePointer_aligned (i : Interaction) (p : Pointer)
    (hal : registryAligned i) : registryAligned ((removePointer i p).1) := by
  obtain ⟨h1, h2, h3⟩ := hal
  simp only [removePointer]
  split_ifs with h
  · exact ⟨h1, h2, h3⟩
  · simp [registryAligned, spliceOne_length]
    split_ifs <;> omega

/-- C6 corrected: the four parallel contact arrays stay index-aligned
(equal length) under `removePointer`, `start`, `end`, `stop`, under
down-updates (`updatePointer`/`pointerDown` with `isDown`) on a
not-interacting touch session, and under non-down updates (`pointerMove`)
of an already-registered touch contact; but not in general — an update
that introduces a new identifier outside a not-interacting down (see the
counterexample) extends `pointerIds`/`pointers` without extending
`downTimes`/`downTargets`. -/
theorem C6_amended_registry_alignment :
    (∀ (i : Interaction) (p : Pointer) (e : Option RawEvent) (t : Nat) (now : Int),
      i.pointerType ≠ "mouse" → i.pointerType ≠ "pen" →
      i._interacting = false → registryAligned i →
      registryAligned ((updatePointer i p e t true now).1))
    ∧ (∀ (i : Interaction) (p : Pointer) (e : RawEvent) (t : Nat) (now : Int),
      i.pointerType ≠ "mouse" → i.pointerType ≠ "pen" →
      i._interacting = false → registryAligned i →
      registryAligned ((pointerDown i p e t now).1))
    ∧ (∀ (i : Interaction) (p : Pointer) (e : Option RawEvent) (t : Nat) (now : Int),
      i.pointerType ≠ "mouse" → i.pointerType ≠ "pen" →
      some p.pointerId ∈ i.pointerIds → registryAligned i →
      registryAligned ((updatePointer i p e t false now).1))
    ∧ (∀ (i : Interaction) (p : Pointer) (e : RawEvent) (t : Nat) (now : Int) (v : Bool),
      i.pointerType ≠ "mouse" → i.pointerType ≠ "pen" →
      some p.pointerId ∈ i.pointerIds → registryAligned i →
      registryAligned ((pointerMove i p e t now v).1))
    ∧ (∀ (i : Interaction) (p : Pointer),
      registryAligned i → registryAligned ((removePointer i p).1))
    ∧ (∀ (i : Interaction) (a : Action) (t el : Nat),
      registryAligned i → registryAligned ((start i a t el).1))
    ∧ (∀ (i : Interaction) (v : Bool),
      registryAligned i → registryAligned ((endAction i v).1))
    ∧ (∀ i : Interaction,
      registryAligned i → registryAligned ((stop i).1)) := by
  refine ⟨updatePointer_down_aligned, ?_, updatePointer_move_aligned, ?_,
    removePointer_aligned, ?_, ?_, ?_⟩
  · intro i p e t now hm hp hni hal
    unfold pointerDown
    exact updatePointer_down_aligned i p (some e) t now hm hp hni hal
  · intro i p e t now v hm hp hmem hal
    obtain ⟨a1, a2, a3, a4⟩ := pointerMove_arrays i p e t now v
    have hupd : registryAligned (pointerMoveUpdated i p e t now) := by
      unfold pointerMoveUpdated
      split
      · exact hal
      · exact updatePointer_move_aligned i p (some e) t now hm hp hmem hal
    unfold registryAligned at hupd ⊢
    rw [a1, a2, a3, a4]
    exact hupd
  · intro i a t el hal
    obtain ⟨_, _, f3, f4, f5, f6, _⟩ := start_frame i a t el
    unfold registryAligned at hal ⊢
    rw [f3, f4, f5, f6]
    exact hal
  · intro i v hal
    obtain ⟨_, _, f3, f4, f5, f6, _⟩ := endAction_frame i v
    unfold registryAligned at hal ⊢
    rw [f3, f4, f5, f6]
    exact hal
  · intro i hal
    obtain ⟨_, _, f3, f4, f5, f6, _⟩ := stop_frame i
    unfold registryAligned at hal ⊢
    rw [f3, f4, f5, f6]
    exact hal

/-- Witness for the amended C6: two touch downs followed by a removal keep
the four arrays aligned. -/
theorem C6_amended_witness :
    registryAligned ((updatePointer (mkInteraction "touch") wPointer none 4 true 100).1)
    ∧ registryAligned ((removePointer
        ((updatePointer (mkInteraction "touch") wPointer none 4 true 100).1) wPointer).1) :=
  ⟨C6_amended_registry_alignment.1 (mkInteraction "touch") wPointer none 4 100
      (by decide) (by decide) (by decide) (by decide),
   C6_amended_registry_alignment.2.2.2.2.1 _ wPointer
     (C6_amended_registry_alignment.1 (mkInteraction "touch") wPointer none 4 100
       (by decide) (by decide) (by decide) (by decide))⟩

/-! ## C8 -/

/-- The state after the started drag's first real move, used by the C8
witness. -/
def wMoved : Interaction := (pointerMove wStarted wPointer5 wMoveEvent 3 120 false).1

/-- C8: `pointerUp` fires `cancel`/`up` by the `/cancel$/i` test first,
then (no simulation active) runs `end` on the state with the contact still
registered — `end` touches neither the four arrays nor `pointerIsDown` —
and only afterwards clears `pointerIsDown` and removes the contact; the
final state has `pointerIsDown = false`. -/
theorem C8_pointerUp_order (i : Interaction) (p : Pointer) (e : RawEvent) (v : Bool)
    (hs : i.simulation = false) :
    pointerUp i p e v
      = ((removePointer { (endAction i v).1 with pointerIsDown := false } p).1,
         (if isCancelType e.type then Sig.cancel else Sig.up)
           :: ((endAction i v).2
               ++ (removePointer { (endAction i v).1 with pointerIsDown := false } p).2))
    ∧ ((endAction i v).1).pointers = i.pointers
    ∧ ((endAction i v).1).pointerIds = i.pointerIds
    ∧ ((endAction i v).1).downTimes = i.downTimes
    ∧ ((endAction i v).1).downTargets = i.downTargets
    ∧ ((endAction i v).1).pointerIsDown = i.pointerIsDown
    ∧ ((pointerUp i p e v).1).pointerIsDown = false := by
  obtain ⟨e1, e2, e3, e4, e5, e6, e7, e8⟩ := endAction_frame i v
  have hrp := (removePointer_frame
    { (if !i.simulation then (endAction i v).1 else i) with pointerIsDown := false } p).2.1
  refine ⟨?_, e3, e4, e5, e6, e2, ?_⟩
  · unfold pointerUp
    simp [hs]
  · unfold pointerUp
    exact hrp

/-- Witness for C8: lifting the moved drag's pointer ends the interaction
and leaves the pointer up. -/
theorem C8_witness :
    wMoved.simulation = false
    ∧ isCancelType wUpEvent.type = false
    ∧ ((pointerUp wMoved wPointer5 wUpEvent false).1).pointerIsDown = false :=
  ⟨by decide, by decide,
   (C8_pointerUp_order wMoved wPointer5 wUpEvent false (by decide)).2.2.2.2.2.2⟩

/-! ## C9 -/

/-- Entries before the spliced index are untouched. -/
theorem spliceOne_getD_lt {α : Type} (l : List α) (i j : Nat) (d : α) (h : j < i) :
    (spliceOne l i).getD j d = l.getD j d := by
  unfold spliceOne
  rw [List.getD_eq_getElem?_getD, List.getD_eq_getElem?_getD, List.getElem?_append,
    List.length_take]
  by_cases hj : j < min i l.length
  · rw [if_pos hj, List.getElem?_take, if_pos h]
  · rw [if_neg hj, List.getElem?_drop]
    rw [List.getElem?_eq_none (by omega), List.getElem?_eq_none (by omega)]

/-- Entries after the spliced index shift down by one. -/
theorem spliceOne_getD_ge {α : Type} (l : List α) (i j : Nat) (d : α) (h : i ≤ j) :
    (spliceOne l i).getD j d = l.getD (j + 1) d := by
  unfold spliceOne
  rw [List.getD_eq_getElem?_getD, List.getD_eq_getElem?_getD, List.getElem?_append,
    List.length_take]
  rw [if_neg (by omega), List.getElem?_drop]
  by_cases hil : i ≤ l.length
  · congr 2
    omega
  · rw [List.getElem?_eq_none (by omega), List.getElem?_eq_none (by omega)]

/-- Counterexample to C9 as stated: on a mouse session the index lookup
ignores the identifier and resolves 0, so `removePointer` on an *empty*
registry — the identifier is certainly absent — still fires
`remove-pointer` (with index 0) instead of being a complete no-op. -/
theorem C9_counterexample :
    (mkInteraction "mouse").pointerIds = []
    ∧ (removePointer (mkInteraction "mouse") wPointer).2 = [Sig.removePointer 0]
    ∧ (removePointer (mkInteraction "mouse") wPointer).2 ≠ [] := by
  refine ⟨rfl, by decide, by decide⟩

/-- C9 corrected: on touch sessions (where the index is resolved by
identifier lookup) `removePointer` with an absent identifier is a complete
no-op — no signal, no mutation; whenever the lookup resolves a nonnegative
index k (always 0 for mouse/pen, the matched position for touch) it fires
exactly `remove-pointer k` and splices exactly index k out of all four
parallel arrays, leaving earlier entries in place and shifting later ones
down by one. -/
theorem C9_amended_removePointer (i : Interaction) (p : Pointer) :
    (i.pointerType ≠ "mouse" → i.pointerType ≠ "pen" →
      some p.pointerId ∉ i.pointerIds → removePointer i p = (i, []))
    ∧ (∀ k : Nat, getPointerIndex i p = (k : Int) →
        removePointer i p
          = ({ i with
                pointers := spliceOne i.pointers k
                pointerIds := spliceOne i.pointerIds k
                downTargets := spliceOne i.downTargets k
                downTimes := spliceOne i.downTimes k },
             [Sig.removePointer k])
        ∧ (∀ j : Nat, j < k →
            ((removePointer i p).1).pointerIds.getD j none = i.pointerIds.getD j none)
        ∧ (∀ j : Nat, k ≤ j →
            ((removePointer i p).1).pointerIds.getD j none = i.pointerIds.getD (j + 1) none)) := by
  constructor
  · intro hm hp habs
    have hg := getPointerIndex_touch i p hm hp
    have hidx : jsIndexOf i.pointerIds (some p.pointerId) = -1 :=
      (jsIndexOf_neg1_iff _ _).mpr habs
    unfold removePointer
    rw [hg, hidx]
    simp
  · intro k hk
    have hne : getPointerIndex i p ≠ -1 := by
      rw [hk]
      omega
    have hsplice : removePointer i p
        = ({ i with
              pointers := spliceOne i.pointers k
              pointerIds := spliceOne i.pointerIds k
              downTargets := spliceOne i.downTargets k
              downTimes := spliceOne i.downTimes k },
           [Sig.removePointer k]) := by
      unfold removePointer
      rw [if_neg hne, hk]
      simp
    refine ⟨hsplice, ?_, ?_⟩
    · intro j hj
      rw [hsplice]
      exact spliceOne_getD_lt i.pointerIds k j none hj
    · intro j hj
      rw [hsplice]
      exact spliceOne_getD_ge i.pointerIds k j none hj

/-- Witness for the amended C9: removing an unknown identifier from a
touch session with one held contact is a complete no-op, and the resolved
index 0 of the held contact splices exactly that slot. -/
theorem C9_witness :
    ((updatePointer (mkInteraction "touch") wPointer none 4 true 100).1).pointerType = "touch"
    ∧ some (9 : Nat) ∉ ((updatePointer (mkInteraction "touch") wPointer none 4 true 100).1).pointerIds
    ∧ removePointer ((updatePointer (mkInteraction "touch") wPointer none 4 true 100).1)
        { pointerId := 9, page := { x := 0, y := 0 }, client := { x := 0, y := 0 } }
      = ((updatePointer (mkInteraction "touch") wPointer none 4 true 100).1, []) :=
  ⟨by decide, by decide,
   (C9_amended_removePointer
      ((updatePointer (mkInteraction "touch") wPointer none 4 true 100).1)
      { pointerId := 9, page := { x := 0, y := 0 }, client := { x := 0, y := 0 } }).1
     (by decide) (by decide) (by decide)⟩

/-! ## C10 -/

/-- C10: on a platform without pointer-event support, a mouse-type raw
event is dropped — no session method invoked, no `find` fired, no session
resolved or created, scope unchanged — exactly when some live non-mouse
session has a pointer down, or the event arrives less than 500ms after the
most recent touch event, or its `timeStamp` is 0; otherwise exactly one
session is dispatched to: the one the finder/`find` listeners resolved, or
a newly created one appended to the pool. -/
theorem C10_simulated_mouse_filtering (scope : Scope) (ev : RawEvent) (pt : String)
    (now : Int) (resolved : Option Nat)
    (hm : isMouseTypeStr ev.type = true) :
    ((hasActiveNonMouse scope.interactions
        || decide (now - scope.prevTouchTime < 500)
        || decide (ev.timeStamp = 0)) = true →
      dispatchNonTouch scope ev pt false now resolved = (scope, [], []))
    ∧ ((hasActiveNonMouse scope.interactions
        || decide (now - scope.prevTouchTime < 500)
        || decide (ev.timeStamp = 0)) = false →
      (dispatchNonTouch scope ev pt false now resolved).2.1.length = 1
      ∧ (∀ k : Nat, resolved = some k →
          dispatchNonTouch scope ev pt false now resolved = (scope, [k], [Sig.find]))
      ∧ (resolved = none →
          dispatchNonTouch scope ev pt false now resolved
            = ({ scope with interactions := scope.interactions ++ [mkInteraction pt] },
               [scope.interactions.length], [Sig.find, Sig.new]))) := by
  constructor
  · intro hc
    unfold dispatchNonTouch
    simp [hm, hc]
  · intro hc
    unfold dispatchNonTouch
    simp only [hm, hc]
    cases resolved with
    | none => simp
    | some k => simp

/-- Witness for C10: a mouse event 100ms after the last touch event is
dropped with the scope untouched. -/
theorem C10_witness :
    (hasActiveNonMouse (Scope.mk [] 900).interactions
        || decide ((1000 : Int) - (Scope.mk [] 900).prevTouchTime < 500)
        || decide (({ type := "mousedown", timeStamp := 1000 } : RawEvent).timeStamp = 0)) = true
    ∧ dispatchNonTouch (Scope.mk [] 900) { type := "mousedown", timeStamp := 1000 } "mouse"
        false 1000 none = (Scope.mk [] 900, [], []) :=
  ⟨by decide,
   (C10_simulated_mouse_filtering (Scope.mk [] 900)
      { type := "mousedown", timeStamp := 1000 } "mouse" 1000 none (by decide)).1 (by decide)⟩

end IJS
